import Mathlib

/-!
Shallow embedding of `src/index.js`, a two-party speech-translation relay
server. The server keeps two FIFO delivery queues (`streamQueues.A` and
`streamQueues.B`), accepts utterances on `POST /interpret` (transcribe,
translate, synthesize via an external provider, then push the result onto
the *opposite* participant's queue) and serves polls on `GET /stream/:mode`
(shift the oldest item off the caller's own queue, or answer an all-null
body when the queue is empty).

External provider calls (Whisper transcription, chat-completion
translation, TTS synthesis) are modelled as oracles that either return a
string or fail; file-system side effects (temp-file rename/unlink) carry
no observable state relevant to the claims and are not modelled.
-/

/-- The supported language table (`LANGUAGES`, `src/index.js` lines 25-36):
language codes mapped to display names, used only to build the translation
prompt. -/
def LANGUAGES : List (String × String) :=
  [("en-US", "English"), ("fr-FR", "French"), ("tr-TR", "Turkish"),
   ("es-ES", "Spanish"), ("pl-PL", "Polish"), ("it-IT", "Italian"),
   ("pt-PT", "Portuguese"), ("cmn-CN", "Chinese"), ("ar-XA", "Arabic"),
   ("de-DE", "German")]

/-- JavaScript template-literal interpolation of a possibly-undefined
lookup: `LANGUAGES[targetLang]` interpolates as the string "undefined"
when the key is absent. -/
def jsTemplate : Option String → String
  | some s => s
  | none => "undefined"

/-- The voice table inside `getVoiceForLang` (`src/index.js` lines 40-45). -/
def femaleVoices : List (String × String) :=
  [("en-US", "nova"), ("fr-FR", "onyx"), ("es-ES", "shimmer"),
   ("de-DE", "echo")]

/-- The own property names of `Object.prototype`, which the JavaScript
property access `femaleVoices[lang]` reaches through the prototype chain
when `lang` is not an own key of the object literal. Each of these
resolves to a truthy value (a built-in function, or the prototype object
itself for "__proto__"), so `|| "nova"` passes it through unchanged. -/
def objectPrototypeKeys : List String :=
  ["constructor", "hasOwnProperty", "isPrototypeOf",
   "propertyIsEnumerable", "toLocaleString", "toString", "valueOf",
   "__defineGetter__", "__defineSetter__", "__lookupGetter__",
   "__lookupSetter__", "__proto__"]

/-- The value `getVoiceForLang` produces: either a voice string (an own
entry of the table, or the default), or a truthy member inherited from
`Object.prototype` (not a voice identifier at all). -/
inductive JsVoice where
  | voice (s : String)
  | inheritedMember (name : String)
deriving DecidableEq

/-- `getVoiceForLang` (`src/index.js` lines 39-47):
`femaleVoices[lang] || "nova"`. An own key of the object literal yields
its (truthy, non-empty) table entry; a key inherited from
`Object.prototype` (e.g. "toString") yields that truthy inherited
member, which `||` passes through; only a key found nowhere on the
chain yields `undefined`, which falls back to the English voice. Total
on all input strings; no error path. -/
def getVoiceForLang (lang : String) : JsVoice :=
  match femaleVoices.lookup lang with
  | some v => .voice v
  | none =>
    if objectPrototypeKeys.contains lang then .inheritedMember lang
    else .voice "nova"

/-- `sourceLang.split("-")[0]` (`src/index.js` line 84): the first
component of the dash-separated split, i.e. the characters before the
first dash (the whole string when there is none). -/
def primarySubtag (s : String) : String :=
  String.mk (s.data.takeWhile (fun c => c ≠ '-'))

/-- The translation prompt built at `src/index.js` line 91. -/
def translationPrompt (targetLang transcript : String) : String :=
  "Translate this text to " ++ jsTemplate (LANGUAGES.lookup targetLang)
    ++ ":\n" ++ transcript

/-- One queued utterance (the `streamPayload` object, `src/index.js`
lines 112-116). -/
structure StreamPayload where
  audioBase64 : String
  text : String
  timestamp : Nat
deriving DecidableEq

/-- The two delivery queues (`streamQueues`, `src/index.js` lines 50-53).
JS array `push` appends at the tail, `shift` removes at the head, so each
queue is a list whose head is the oldest element. -/
structure ServerState where
  qA : List StreamPayload
  qB : List StreamPayload
deriving DecidableEq

/-- `streamQueues[mode]` (`src/index.js` line 147): dynamic lookup of the
queue for a mode string (only ever reached with mode "A" or "B"). -/
def slotQueue (mode : String) (s : ServerState) : List StreamPayload :=
  if mode = "A" then s.qA else s.qB

/-- Writing back the (mutated-in-place in JS) queue selected by
`streamQueues[mode]` after a `shift`. -/
def setSlotQueue (mode : String) (q : List StreamPayload) (s : ServerState) :
    ServerState :=
  if mode = "A" then { s with qA := q } else { s with qB := q }

/-- The enqueue site of the interpret handler (`src/index.js`
lines 119-123): a sender in mode "A" pushes onto queue B, a sender in
mode "B" pushes onto queue A, anything else pushes nowhere. -/
def enqueueOpposite (mode : String) (streamPayload : StreamPayload)
    (s : ServerState) : ServerState :=
  if mode = "A" then { s with qB := s.qB ++ [streamPayload] }
  else if mode = "B" then { s with qA := s.qA ++ [streamPayload] }
  else s

/-- The JSON body answered by `GET /stream/:mode` with status 200: either
a queued payload's fields or all-null. -/
structure StreamBody where
  audioBase64 : Option String
  text : Option String
  timestamp : Option Nat
deriving DecidableEq

/-- Serialization of a queued payload by `res.json(audioItem)`
(`src/index.js` line 155). -/
def payloadBody (p : StreamPayload) : StreamBody :=
  { audioBase64 := some p.audioBase64, text := some p.text,
    timestamp := some p.timestamp }

/-- Response of `GET /stream/:mode`: a 400 error or a 200 body. -/
inductive StreamResponse where
  | badRequest (error : String)
  | body (b : StreamBody)
deriving DecidableEq

/-- The `GET /stream/:mode` handler (`src/index.js` lines 140-156):
validate the mode, answer all-null on an empty queue, otherwise shift off
and answer the oldest item. Returns the response and the state after the
request. -/
def streamHandler (mode : String) (s : ServerState) :
    StreamResponse × ServerState :=
  if (["A", "B"] : List String).contains mode = false then
    (.badRequest "Invalid stream mode.", s)
  else
    match slotQueue mode s with
    | [] => (.body { audioBase64 := none, text := none, timestamp := none }, s)
    | audioItem :: rest => (.body (payloadBody audioItem),
        setSlotQueue mode rest s)

/-- The inputs of a `POST /interpret` request as the handler sees them:
whether a file was uploaded (`req.file`), and the three multipart body
fields, each possibly absent. -/
structure InterpretRequest where
  file : Bool
  sourceLang : Option String
  targetLang : Option String
  mode : Option String

/-- JavaScript falsiness of a possibly-absent string field, as tested by
`!sourceLang || !targetLang` (`src/index.js` line 63): absent or the
empty string. -/
def falsyStr : Option String → Bool
  | none => true
  | some s => s == ""

/-- `["A", "B"].includes(mode)` on the body field (`src/index.js`
line 71); an absent field is not a member. -/
def modeIsValid : Option String → Bool
  | some m => (["A", "B"] : List String).contains m
  | none => false

/-- One outbound call to the external capability provider, recorded so
that theorems can state that no provider call happens on a path. -/
inductive ProviderCall where
  | transcribe (language : String)
  | chatComplete (prompt : String)
  | synthesizeSpeech (input : String) (voice : JsVoice)
deriving DecidableEq

/-- The external capability provider as an oracle: each stage either
answers a string (transcript / translated text / base64 audio) or fails
(any thrown error, modelled as `Except.error ()`). -/
structure Providers where
  transcribe : String → Except Unit String
  chatComplete : String → Except Unit String
  synthesizeSpeech : String → JsVoice → Except Unit String

/-- Response of `POST /interpret`: 400, 500, or the 200 success body
`{transcript, interpretedText, audioBase64}` (`src/index.js`
lines 128-132). -/
inductive InterpretResponse where
  | badRequest (error : String)
  | serverError (error : String)
  | ok (transcript : String) (interpretedText : String)
      (audioBase64 : String)
deriving DecidableEq

/-- Everything observable about one `POST /interpret` request: the
response, the server state afterwards, and the provider calls made. -/
structure InterpretResult where
  response : InterpretResponse
  state : ServerState
  calls : List ProviderCall

/-- The `POST /interpret` handler (`src/index.js` lines 55-137):
validate the file, the language fields and the mode; then transcribe,
translate and synthesize in sequence, aborting with a generic 500 if any
stage throws (the `catch` at line 133); on success push the payload onto
the opposite participant's queue and answer 200. `now` is the value
`Date.now()` takes at line 115. -/
def interpret (pv : Providers) (now : Nat) (req : InterpretRequest)
    (s : ServerState) : InterpretResult :=
  if req.file = false then
    { response := .badRequest "No audio file uploaded.", state := s,
      calls := [] }
  else if falsyStr req.sourceLang || falsyStr req.targetLang then
    { response := .badRequest "Missing sourceLang or targetLang.",
      state := s, calls := [] }
  else if modeIsValid req.mode = false then
    { response := .badRequest "Invalid mode value.", state := s,
      calls := [] }
  else
    let sourceLang := req.sourceLang.getD ""
    let targetLang := req.targetLang.getD ""
    let language := primarySubtag sourceLang
    match pv.transcribe language with
    | .error _ =>
      { response := .serverError "Failed to interpret.", state := s,
        calls := [.transcribe language] }
    | .ok transcript =>
      let prompt := translationPrompt targetLang transcript
      match pv.chatComplete prompt with
      | .error _ =>
        { response := .serverError "Failed to interpret.", state := s,
          calls := [.transcribe language, .chatComplete prompt] }
      | .ok interpretedText =>
        let voice := getVoiceForLang targetLang
        match pv.synthesizeSpeech interpretedText voice with
        | .error _ =>
          { response := .serverError "Failed to interpret.", state := s,
            calls := [.transcribe language, .chatComplete prompt,
                      .synthesizeSpeech interpretedText voice] }
        | .ok base64Audio =>
          let streamPayload : StreamPayload :=
            { audioBase64 := base64Audio, text := interpretedText,
              timestamp := now }
          { response := .ok transcript interpretedText base64Audio,
            state := enqueueOpposite (req.mode.getD "") streamPayload s,
            calls := [.transcribe language, .chatComplete prompt,
                      .synthesizeSpeech interpretedText voice] }

/-- True when at least one of the three provider stages the pipeline
reaches fails, following the pipeline's own sequencing (a later stage is
only consulted when the earlier ones succeeded). -/
def pipelineFails (pv : Providers) (sourceLang targetLang : String) : Bool :=
  match pv.transcribe (primarySubtag sourceLang) with
  | .error _ => true
  | .ok transcript =>
    match pv.chatComplete (translationPrompt targetLang transcript) with
    | .error _ => true
    | .ok interpretedText =>
      match pv.synthesizeSpeech interpretedText
          (getVoiceForLang targetLang) with
      | .error _ => true
      | .ok _ => false

/-- The participant slot opposite a given one: "A" ↦ "B" and
everything else ↦ "A" (only ever used at "A" and "B"). -/
def otherMode (m : String) : String :=
  if m = "A" then "B" else "A"

/-- One relay operation on a fixed slot X: an enqueue of a payload bound
for X (performed by a successful submission from the opposite sender) or
a dequeue (a poll of `GET /stream/X`). -/
inductive SlotOp where
  | enq (p : StreamPayload)
  | deq

/-- Apply one relay operation for slot `mode`: an enqueue runs the
interpret handler's enqueue site with the opposite sender's mode, a
dequeue runs the stream handler and extracts the delivered payload, if
any. -/
def applyOp (mode : String) (s : ServerState) :
    SlotOp → ServerState × Option StreamPayload
  | .enq p => (enqueueOpposite (otherMode mode) p s, none)
  | .deq =>
    match streamHandler mode s with
    | (.body { audioBase64 := some a, text := some t, timestamp := some ts },
        s') => (s', some { audioBase64 := a, text := t, timestamp := ts })
    | (_, s') => (s', none)

/-- Run a sequence of relay operations on slot `mode`, returning the
final state and the payloads the dequeues delivered, oldest first. -/
def runOps (mode : String) : List SlotOp → ServerState →
    ServerState × List StreamPayload
  | [], s => (s, [])
  | op :: rest, s =>
    let step := applyOp mode s op
    let next := runOps mode rest step.1
    (next.1, step.2.toList ++ next.2)

/-- The payloads a sequence of relay operations enqueues, oldest first. -/
def enqueuedOf : List SlotOp → List StreamPayload
  | [] => []
  | .enq p :: rest => p :: enqueuedOf rest
  | .deq :: rest => enqueuedOf rest

/-- A provider oracle on which all three stages succeed with fixed
answers ("QUJD" is base64 of "ABC"). -/
def okProviders : Providers :=
  { transcribe := fun _ => .ok "hello",
    chatComplete := fun _ => .ok "bonjour",
    synthesizeSpeech := fun _ _ => .ok "QUJD" }

/-- A provider oracle whose synthesis stage throws (the first two stages
succeed). -/
def failSynthesis : Providers :=
  { transcribe := fun _ => .ok "hello",
    chatComplete := fun _ => .ok "bonjour",
    synthesizeSpeech := fun _ _ => .error () }

/-- A well-formed submission from participant A. -/
def reqA : InterpretRequest :=
  { file := true, sourceLang := some "en-US", targetLang := some "fr-FR",
    mode := some "A" }

/-- A submission whose mode field is outside the slot set. -/
def reqC : InterpretRequest :=
  { file := true, sourceLang := some "en-US", targetLang := some "fr-FR",
    mode := some "C" }

/-- A submission whose sourceLang field is absent. -/
def reqNoSource : InterpretRequest :=
  { file := true, sourceLang := none, targetLang := some "fr-FR",
    mode := some "A" }

/-- A submission with languages outside the supported LANGUAGES table. -/
def reqUnsupported : InterpretRequest :=
  { file := true, sourceLang := some "zz-ZZ", targetLang := some "zz-ZZ",
    mode := some "A" }

/-- A small interleaved operation sequence used to exercise the relay. -/
def opsW : List SlotOp :=
  [.enq { audioBase64 := "x", text := "t1", timestamp := 1 }, .deq,
   .enq { audioBase64 := "y", text := "t2", timestamp := 2 }, .deq, .deq]

/-- A server state with two items pending for A and one for B. -/
def sW : ServerState :=
  { qA := [{ audioBase64 := "a1", text := "t1", timestamp := 1 },
           { audioBase64 := "a2", text := "t2", timestamp := 2 }],
    qB := [{ audioBase64 := "a3", text := "t3", timestamp := 3 }] }

/-- A server state whose A-queue is empty while B's is not. -/
def sEmptyA : ServerState :=
  { qA := [], qB := [{ audioBase64 := "a3", text := "t3", timestamp := 3 }] }

/-! Helper lemmas about the two valid slots and the handlers. -/

theorem slotQueue_setSlotQueue_self (m : String) (hm : m = "A" ∨ m = "B")
    (q : List StreamPayload) (s : ServerState) :
    slotQueue m (setSlotQueue m q s) = q := by
  rcases hm with rfl | rfl <;> rfl

theorem slotQueue_setSlotQueue_other (m : String) (hm : m = "A" ∨ m = "B")
    (q : List StreamPayload) (s : ServerState) :
    slotQueue (otherMode m) (setSlotQueue m q s) =
      slotQueue (otherMode m) s := by
  rcases hm with rfl | rfl <;> rfl

theorem slotQueue_enqueueOpposite_own (m : String) (hm : m = "A" ∨ m = "B")
    (p : StreamPayload) (s : ServerState) :
    slotQueue m (enqueueOpposite (otherMode m) p s) =
      slotQueue m s ++ [p] := by
  rcases hm with rfl | rfl <;> rfl

theorem streamHandler_valid (m : String) (hm : m = "A" ∨ m = "B")
    (s : ServerState) :
    streamHandler m s =
      match slotQueue m s with
      | [] => (.body { audioBase64 := none, text := none, timestamp := none },
          s)
      | p :: rest => (.body (payloadBody p), setSlotQueue m rest s) := by
  rcases hm with rfl | rfl <;> rfl

theorem streamHandler_empty_iff (m : String) (hm : m = "A" ∨ m = "B")
    (s : ServerState) :
    (streamHandler m s).1 =
      .body { audioBase64 := none, text := none, timestamp := none } ↔
    slotQueue m s = [] := by
  rw [streamHandler_valid m hm s]
  cases hq : slotQueue m s with
  | nil => simp
  | cons p rest => simp [payloadBody]

theorem runOps_invariant (m : String) (hm : m = "A" ∨ m = "B")
    (ops : List SlotOp) :
    ∀ s : ServerState,
      slotQueue m s ++ enqueuedOf ops =
        (runOps m ops s).2 ++ slotQueue m (runOps m ops s).1 := by
  induction ops with
  | nil => intro s; simp [runOps, enqueuedOf]
  | cons op rest ih =>
    intro s
    cases op with
    | enq p =>
      have h2 := ih (enqueueOpposite (otherMode m) p s)
      rw [slotQueue_enqueueOpposite_own m hm p s] at h2
      simp only [runOps, applyOp, enqueuedOf, Option.toList,
        List.nil_append]
      simpa using h2
    | deq =>
      cases hq : slotQueue m s with
      | nil =>
        have hsh : streamHandler m s =
            (.body { audioBase64 := none, text := none, timestamp := none },
              s) := by
          rw [streamHandler_valid m hm s, hq]
        simp only [runOps, applyOp, enqueuedOf, hsh, Option.toList,
          List.nil_append]
        have h2 := ih s
        rw [hq] at h2
        simpa using h2
      | cons p restQ =>
        have hsh : streamHandler m s =
            (.body (payloadBody p), setSlotQueue m restQ s) := by
          rw [streamHandler_valid m hm s, hq]
        have h2 := ih (setSlotQueue m restQ s)
        rw [slotQueue_setSlotQueue_self m hm restQ s] at h2
        simp only [runOps, applyOp, enqueuedOf, hsh, payloadBody,
          Option.toList, hq]
        simp [← h2]

theorem interpret_no_file (pv : Providers) (now : Nat)
    (req : InterpretRequest) (s : ServerState) (h : req.file = false) :
    interpret pv now req s =
      { response := .badRequest "No audio file uploaded.", state := s,
        calls := [] } := by
  simp [interpret, h]

theorem interpret_missing_lang (pv : Providers) (now : Nat)
    (req : InterpretRequest) (s : ServerState) (h1 : req.file = true)
    (h2 : (falsyStr req.sourceLang || falsyStr req.targetLang) = true) :
    interpret pv now req s =
      { response := .badRequest "Missing sourceLang or targetLang.",
        state := s, calls := [] } := by
  simp [interpret, h1, h2]

theorem interpret_invalid_mode_400 (pv : Providers) (now : Nat)
    (req : InterpretRequest) (s : ServerState) (h1 : req.file = true)
    (h2 : (falsyStr req.sourceLang || falsyStr req.targetLang) = false)
    (h3 : modeIsValid req.mode = false) :
    interpret pv now req s =
      { response := .badRequest "Invalid mode value.", state := s,
        calls := [] } := by
  simp [interpret, h1, h2, h3]

theorem interpret_cases (pv : Providers) (now : Nat)
    (req : InterpretRequest) (s : ServerState) :
    ((interpret pv now req s).state = s ∧
      ∀ t i a, (interpret pv now req s).response ≠ .ok t i a) ∨
    (modeIsValid req.mode = true ∧
      ∃ t i a, (interpret pv now req s).response = .ok t i a ∧
        (interpret pv now req s).state =
          enqueueOpposite (req.mode.getD "")
            { audioBase64 := a, text := i, timestamp := now } s) := by
  cases hf : req.file with
  | false => rw [interpret_no_file pv now req s hf]
             exact Or.inl ⟨rfl, by intro t i a h; cases h⟩
  | true =>
    cases hfs : (falsyStr req.sourceLang || falsyStr req.targetLang) with
    | true => rw [interpret_missing_lang pv now req s hf hfs]
              exact Or.inl ⟨rfl, by intro t i a h; cases h⟩
    | false =>
      cases hmv : modeIsValid req.mode with
      | false => rw [interpret_invalid_mode_400 pv now req s hf hfs hmv]
                 exact Or.inl ⟨rfl, by intro t i a h; cases h⟩
      | true =>
        cases h1 : pv.transcribe (primarySubtag (req.sourceLang.getD "")) with
        | error e =>
          refine Or.inl ⟨?_, ?_⟩ <;> simp [interpret, hf, hfs, hmv, h1]
        | ok t =>
          cases h2 : pv.chatComplete
              (translationPrompt (req.targetLang.getD "") t) with
          | error e =>
            refine Or.inl ⟨?_, ?_⟩ <;> simp [interpret, hf, hfs, hmv, h1, h2]
          | ok i =>
            cases h3 : pv.synthesizeSpeech i
                (getVoiceForLang (req.targetLang.getD "")) with
            | error e =>
              refine Or.inl ⟨?_, ?_⟩ <;>
                simp [interpret, hf, hfs, hmv, h1, h2, h3]
            | ok a =>
              refine Or.inr ⟨rfl, t, i, a, ?_, ?_⟩ <;>
                simp [interpret, hf, hfs, hmv, h1, h2, h3]

theorem interpret_validated_no_400 (pv : Providers) (now : Nat)
    (req : InterpretRequest) (s : ServerState) (hf : req.file = true)
    (hfs : (falsyStr req.sourceLang || falsyStr req.targetLang) = false)
    (hmv : modeIsValid req.mode = true) :
    ∀ e, (interpret pv now req s).response ≠ .badRequest e := by
  intro e
  cases h1 : pv.transcribe (primarySubtag (req.sourceLang.getD "")) with
  | error e2 => simp [interpret, hf, hfs, hmv, h1]
  | ok t =>
    cases h2 : pv.chatComplete
        (translationPrompt (req.targetLang.getD "") t) with
    | error e2 => simp [interpret, hf, hfs, hmv, h1, h2]
    | ok i =>
      cases h3 : pv.synthesizeSpeech i
          (getVoiceForLang (req.targetLang.getD "")) with
      | error e2 => simp [interpret, hf, hfs, hmv, h1, h2, h3]
      | ok a => simp [interpret, hf, hfs, hmv, h1, h2, h3]

/-! The claims. -/

/-- Claim C1: for every sequence of enqueues to a slot X interleaved with
dequeues on X, starting from an empty queue for X, the dequeues deliver
the items in exactly the order they were enqueued — the enqueued sequence
equals the delivered sequence followed by the still-queued remainder —
and a further dequeue returns the all-null Empty sentinel if and only if
no enqueued item for X remains unconsumed. -/
theorem claim_fifo_order_and_empty (mode : String)
    (hm : mode = "A" ∨ mode = "B") (s : ServerState)
    (hs : slotQueue mode s = []) (ops : List SlotOp) :
    enqueuedOf ops =
      (runOps mode ops s).2 ++ slotQueue mode (runOps mode ops s).1 ∧
    ((streamHandler mode (runOps mode ops s).1).1 =
        .body { audioBase64 := none, text := none, timestamp := none } ↔
      slotQueue mode (runOps mode ops s).1 = []) := by
  refine ⟨?_, streamHandler_empty_iff mode hm _⟩
  have h := runOps_invariant mode hm ops s
  rw [hs] at h
  simpa using h

/-- Witness for C1: a concrete interleaving on slot "A" from the empty
state. -/
theorem claim_fifo_order_and_empty_witness :
    slotQueue "A" { qA := [], qB := [] } = [] ∧
    (enqueuedOf opsW =
      (runOps "A" opsW { qA := [], qB := [] }).2 ++
        slotQueue "A" (runOps "A" opsW { qA := [], qB := [] }).1 ∧
    ((streamHandler "A" (runOps "A" opsW { qA := [], qB := [] }).1).1 =
        .body { audioBase64 := none, text := none, timestamp := none } ↔
      slotQueue "A" (runOps "A" opsW { qA := [], qB := [] }).1 = [])) :=
  ⟨rfl, claim_fifo_order_and_empty "A" (Or.inl rfl) { qA := [], qB := [] }
    rfl opsW⟩

/-- Claim C2: a submission with mode "A" never changes slot A's queue,
and when it succeeds it appends its payload to slot B's queue (so the
utterance is observable only via polls of slot B); symmetrically for
mode "B". -/
theorem claim_opposite_slot_delivery (pv : Providers) (now : Nat)
    (req : InterpretRequest) (s : ServerState) :
    (req.mode = some "A" →
      (interpret pv now req s).state.qA = s.qA ∧
      ∀ t i a, (interpret pv now req s).response = .ok t i a →
        (interpret pv now req s).state.qB =
          s.qB ++ [{ audioBase64 := a, text := i, timestamp := now }]) ∧
    (req.mode = some "B" →
      (interpret pv now req s).state.qB = s.qB ∧
      ∀ t i a, (interpret pv now req s).response = .ok t i a →
        (interpret pv now req s).state.qA =
          s.qA ++ [{ audioBase64 := a, text := i, timestamp := now }]) := by
  rcases interpret_cases pv now req s with ⟨hstate, hnok⟩ |
    ⟨hmv, t, i, a, hok, hstate⟩
  · exact ⟨fun _ => ⟨by rw [hstate], fun t i a h => absurd h (hnok t i a)⟩,
      fun _ => ⟨by rw [hstate], fun t i a h => absurd h (hnok t i a)⟩⟩
  · constructor
    · intro hmode
      rw [hmode] at hstate
      refine ⟨by rw [hstate]; exact rfl, ?_⟩
      intro t' i' a' hok'
      rw [hok] at hok'
      injection hok' with e1 e2 e3
      subst e1; subst e2; subst e3
      rw [hstate]; exact rfl
    · intro hmode
      rw [hmode] at hstate
      refine ⟨by rw [hstate]; exact rfl, ?_⟩
      intro t' i' a' hok'
      rw [hok] at hok'
      injection hok' with e1 e2 e3
      subst e1; subst e2; subst e3
      rw [hstate]; exact rfl

/-- Witness for C2: a concrete successful submission from A lands in
queue B and leaves queue A empty. -/
theorem claim_opposite_slot_delivery_witness :
    (interpret okProviders 7 reqA { qA := [], qB := [] }).state.qA = [] ∧
    (interpret okProviders 7 reqA { qA := [], qB := [] }).state.qB =
      [{ audioBase64 := "QUJD", text := "bonjour", timestamp := 7 }] := by
  have h := (claim_opposite_slot_delivery okProviders 7 reqA
    { qA := [], qB := [] }).1 rfl
  refine ⟨h.1, ?_⟩
  have h2 := h.2 "hello" "bonjour" "QUJD" (by decide)
  simpa using h2

/-- Claim C3: an enqueue mutates only the recipient slot's queue — a
sender in mode "A" (recipient B) leaves queue A exactly as it was while
appending to queue B, and vice versa. -/
theorem claim_enqueue_slot_isolation (p : StreamPayload) (s : ServerState) :
    ((enqueueOpposite "A" p s).qA = s.qA ∧
      (enqueueOpposite "A" p s).qB = s.qB ++ [p]) ∧
    ((enqueueOpposite "B" p s).qB = s.qB ∧
      (enqueueOpposite "B" p s).qA = s.qA ++ [p]) :=
  ⟨⟨rfl, rfl⟩, ⟨rfl, rfl⟩⟩

/-- Claim C4: when any of the three provider stages the pipeline reaches
fails on a request that passed validation, the response is the generic
500 "Failed to interpret.", no partial result is returned (the response
is never the success constructor), and neither delivery queue is
mutated. -/
theorem claim_provider_failure_aborts (pv : Providers) (now : Nat)
    (req : InterpretRequest) (s : ServerState)
    (hfile : req.file = true)
    (hsl : falsyStr req.sourceLang = false)
    (htl : falsyStr req.targetLang = false)
    (hmv : modeIsValid req.mode = true)
    (hfail : pipelineFails pv (req.sourceLang.getD "")
        (req.targetLang.getD "") = true) :
    (interpret pv now req s).response =
      .serverError "Failed to interpret." ∧
    (interpret pv now req s).state = s ∧
    ∀ t i a, (interpret pv now req s).response ≠ .ok t i a := by
  cases h1 : pv.transcribe (primarySubtag (req.sourceLang.getD "")) with
  | error e =>
    refine ⟨?_, ?_, ?_⟩ <;> simp [interpret, hfile, hsl, htl, hmv, h1]
  | ok t =>
    cases h2 : pv.chatComplete
        (translationPrompt (req.targetLang.getD "") t) with
    | error e =>
      refine ⟨?_, ?_, ?_⟩ <;> simp [interpret, hfile, hsl, htl, hmv, h1, h2]
    | ok i =>
      cases h3 : pv.synthesizeSpeech i
          (getVoiceForLang (req.targetLang.getD "")) with
      | error e =>
        refine ⟨?_, ?_, ?_⟩ <;>
          simp [interpret, hfile, hsl, htl, hmv, h1, h2, h3]
      | ok a => simp [pipelineFails, h1, h2, h3] at hfail

/-- Witness for C4: a concrete request whose synthesis stage fails. -/
theorem claim_provider_failure_aborts_witness :
    (interpret failSynthesis 0 reqA { qA := [], qB := [] }).response =
      .serverError "Failed to interpret." ∧
    (interpret failSynthesis 0 reqA { qA := [], qB := [] }).state =
      { qA := [], qB := [] } ∧
    ∀ t i a, (interpret failSynthesis 0 reqA
        { qA := [], qB := [] }).response ≠ .ok t i a :=
  claim_provider_failure_aborts failSynthesis 0 reqA { qA := [], qB := [] }
    rfl rfl rfl rfl (by decide)

/-- Claim C5: a request whose mode is outside A and B (or absent) gets a
400 on either endpoint, mutates no state, and triggers no provider
call. -/
theorem claim_invalid_mode_no_mutation (pv : Providers) (now : Nat)
    (req : InterpretRequest) (s : ServerState) (m : String)
    (s2 : ServerState) (hreq : modeIsValid req.mode = false)
    (hm : (["A", "B"] : List String).contains m = false) :
    ((∃ e, (interpret pv now req s).response = .badRequest e) ∧
      (interpret pv now req s).state = s ∧
      (interpret pv now req s).calls = []) ∧
    streamHandler m s2 = (.badRequest "Invalid stream mode.", s2) := by
  constructor
  · cases hf : req.file with
    | false => rw [interpret_no_file pv now req s hf]
               exact ⟨⟨_, rfl⟩, rfl, rfl⟩
    | true =>
      cases hfs : (falsyStr req.sourceLang || falsyStr req.targetLang) with
      | true => rw [interpret_missing_lang pv now req s hf hfs]
                exact ⟨⟨_, rfl⟩, rfl, rfl⟩
      | false => rw [interpret_invalid_mode_400 pv now req s hf hfs hreq]
                 exact ⟨⟨_, rfl⟩, rfl, rfl⟩
  · unfold streamHandler
    rw [hm]
    rfl

/-- Witness for C5: mode "C" on both endpoints. -/
theorem claim_invalid_mode_no_mutation_witness :
    ((∃ e, (interpret okProviders 0 reqC { qA := [], qB := [] }).response =
        .badRequest e) ∧
      (interpret okProviders 0 reqC { qA := [], qB := [] }).state =
        { qA := [], qB := [] } ∧
      (interpret okProviders 0 reqC { qA := [], qB := [] }).calls = []) ∧
    streamHandler "C" { qA := [], qB := [] } =
      (.badRequest "Invalid stream mode.", { qA := [], qB := [] }) :=
  claim_invalid_mode_no_mutation okProviders 0 reqC { qA := [], qB := [] }
    "C" { qA := [], qB := [] } (by decide) (by decide)

/-- Claim C6: a request missing the audio file, sourceLang or targetLang
gets a 400, mutates neither queue, and triggers no provider call. -/
theorem claim_missing_fields_rejected (pv : Providers) (now : Nat)
    (req : InterpretRequest) (s : ServerState)
    (h : req.file = false ∨ req.sourceLang = none ∨
      req.targetLang = none) :
    (∃ e, (interpret pv now req s).response = .badRequest e) ∧
    (interpret pv now req s).state = s ∧
    (interpret pv now req s).calls = [] := by
  cases hf : req.file with
  | false => rw [interpret_no_file pv now req s hf]
             exact ⟨⟨_, rfl⟩, rfl, rfl⟩
  | true =>
    have h2 : (falsyStr req.sourceLang || falsyStr req.targetLang) = true := by
      rcases h with h | h | h
      · rw [hf] at h; cases h
      · simp [falsyStr, h]
      · simp [falsyStr, h]
    rw [interpret_missing_lang pv now req s hf h2]
    exact ⟨⟨_, rfl⟩, rfl, rfl⟩

/-- Witness for C6: a request with the sourceLang field absent. -/
theorem claim_missing_fields_rejected_witness :
    (∃ e, (interpret okProviders 0 reqNoSource
        { qA := [], qB := [] }).response = .badRequest e) ∧
    (interpret okProviders 0 reqNoSource { qA := [], qB := [] }).state =
      { qA := [], qB := [] } ∧
    (interpret okProviders 0 reqNoSource { qA := [], qB := [] }).calls = [] :=
  claim_missing_fields_rejected okProviders 0 reqNoSource
    { qA := [], qB := [] } (Or.inr (Or.inl rfl))

/-- Claim C7 counterexample: the voice resolver does not map every
non-table input to the default voice. "toString" is not a key of the
voice table, yet `femaleVoices["toString"]` finds the truthy
`Object.prototype.toString` through the prototype chain, so the program
returns that inherited member — not "nova". -/
theorem claim_voice_resolver_counterexample :
    femaleVoices.lookup "toString" = none ∧
    getVoiceForLang "toString" = .inheritedMember "toString" ∧
    getVoiceForLang "toString" ≠ .voice "nova" := by
  decide

/-- Claim C7 (amended): the voice resolver is total over all input
strings and never errors; a language present in the voice table maps to
its table entry; an input absent from the table that names an
`Object.prototype` member (toString, constructor, __proto__, ...)
returns that truthy inherited member instead of a voice; every other
input maps to the default voice "nova". -/
theorem claim_voice_resolver_behavior (lang v : String) :
    (femaleVoices.lookup lang = some v → getVoiceForLang lang = .voice v) ∧
    (femaleVoices.lookup lang = none →
      objectPrototypeKeys.contains lang = true →
      getVoiceForLang lang = .inheritedMember lang) ∧
    (femaleVoices.lookup lang = none →
      objectPrototypeKeys.contains lang = false →
      getVoiceForLang lang = .voice "nova") :=
  ⟨fun h => by simp [getVoiceForLang, h],
   fun h1 h2 => by
     have h3 : lang ∈ objectPrototypeKeys := by simpa using h2
     simp [getVoiceForLang, h1, h3],
   fun h1 h2 => by
     have h3 : lang ∉ objectPrototypeKeys := by simpa using h2
     simp [getVoiceForLang, h1, h3]⟩

/-- Witness for amended C7: a mapped language, a prototype member name,
and a plain unmapped language. -/
theorem claim_voice_resolver_behavior_witness :
    getVoiceForLang "fr-FR" = .voice "onyx" ∧
    getVoiceForLang "toString" = .inheritedMember "toString" ∧
    getVoiceForLang "xx-YY" = .voice "nova" :=
  ⟨(claim_voice_resolver_behavior "fr-FR" "onyx").1 (by decide),
   (claim_voice_resolver_behavior "toString" "nova").2.1 (by decide)
     (by decide),
   (claim_voice_resolver_behavior "xx-YY" "nova").2.2 (by decide)
     (by decide)⟩

/-- Claim C8: polling slot A or B while that slot's queue is empty
answers 200 with the all-null body and leaves the state (both queues)
unchanged. -/
theorem claim_empty_poll_null_sentinel (m : String) (s : ServerState)
    (hm : m = "A" ∨ m = "B") (hq : slotQueue m s = []) :
    streamHandler m s =
      (.body { audioBase64 := none, text := none, timestamp := none },
        s) := by
  rw [streamHandler_valid m hm s, hq]

/-- Witness for C8: polling "A" on an empty A-queue (B's pending item is
untouched). -/
theorem claim_empty_poll_null_sentinel_witness :
    streamHandler "A" sEmptyA =
      (.body { audioBase64 := none, text := none, timestamp := none },
        sEmptyA) :=
  claim_empty_poll_null_sentinel "A" sEmptyA (Or.inl rfl) rfl

/-- Claim C9 counterexample: the handler never checks membership of the
language fields in the supported set. A request with sourceLang and
targetLang "zz-ZZ" — not a key of LANGUAGES — passes validation and
succeeds (200, not a 400 rejection); the unmapped target language merely
interpolates as "undefined" in the translation prompt. -/
theorem claim_supported_language_counterexample :
    (interpret okProviders 0 reqUnsupported
        { qA := [], qB := [] }).response = .ok "hello" "bonjour" "QUJD" ∧
    LANGUAGES.lookup "zz-ZZ" = none ∧
    translationPrompt "zz-ZZ" "hello" =
      "Translate this text to undefined:\nhello" := by
  decide

/-- Claim C9 (amended): a request to `POST /interpret` is rejected with
a 400 if and only if the audio file is absent, sourceLang or targetLang
is falsy (absent or empty), or the mode is outside the slot set. In
particular every request with an uploaded file, non-empty language
fields and a valid mode is accepted — for any provider oracle and any
language values, including languages outside the supported LANGUAGES
table, whose membership is never checked. -/
theorem claim_langs_not_validated (pv : Providers) (now : Nat)
    (req : InterpretRequest) (s : ServerState) :
    (∃ e, (interpret pv now req s).response = .badRequest e) ↔
      (req.file = false ∨ falsyStr req.sourceLang = true ∨
        falsyStr req.targetLang = true ∨ modeIsValid req.mode = false) := by
  constructor
  · rintro ⟨e, he⟩
    cases hf : req.file with
    | false => exact Or.inl rfl
    | true =>
      cases hfs : (falsyStr req.sourceLang || falsyStr req.targetLang) with
      | true =>
        simp only [Bool.or_eq_true] at hfs
        rcases hfs with h | h
        · exact Or.inr (Or.inl h)
        · exact Or.inr (Or.inr (Or.inl h))
      | false =>
        cases hmv : modeIsValid req.mode with
        | false => exact Or.inr (Or.inr (Or.inr rfl))
        | true =>
          exact absurd he (interpret_validated_no_400 pv now req s hf hfs
            hmv e)
  · intro h
    cases hf : req.file with
    | false => rw [interpret_no_file pv now req s hf]; exact ⟨_, rfl⟩
    | true =>
      cases hfs : (falsyStr req.sourceLang || falsyStr req.targetLang) with
      | true => rw [interpret_missing_lang pv now req s hf hfs]
                exact ⟨_, rfl⟩
      | false =>
        cases hmv : modeIsValid req.mode with
        | false => rw [interpret_invalid_mode_400 pv now req s hf hfs hmv]
                   exact ⟨_, rfl⟩
        | true =>
          exfalso
          simp only [Bool.or_eq_false_iff] at hfs
          rcases h with h | h | h | h
          · rw [hf] at h; cases h
          · rw [hfs.1] at h; cases h
          · rw [hfs.2] at h; cases h
          · rw [hmv] at h; cases h

/-- Witness for amended C9: an invalid-mode request is rejected, while
the request with languages outside the supported set — but a file,
non-empty fields and a valid mode — is not rejected. -/
theorem claim_langs_not_validated_witness :
    (∃ e, (interpret okProviders 0 reqC
        { qA := [], qB := [] }).response = .badRequest e) ∧
    ¬ ∃ e, (interpret okProviders 0 reqUnsupported
        { qA := [], qB := [] }).response = .badRequest e := by
  constructor
  · exact (claim_langs_not_validated okProviders 0 reqC
      { qA := [], qB := [] }).mpr (Or.inr (Or.inr (Or.inr (by decide))))
  · intro hex
    rcases (claim_langs_not_validated okProviders 0 reqUnsupported
        { qA := [], qB := [] }).mp hex with h | h | h | h <;>
      revert h <;> decide

/-- Claim C10: a poll on a valid slot leaves the other slot's queue
unchanged; and when the polled queue is non-empty, exactly its oldest
(first) element is removed and returned, the remainder keeps its order,
and the length drops by one. -/
theorem claim_dequeue_frame (m : String) (s : ServerState)
    (hm : m = "A" ∨ m = "B") :
    slotQueue (otherMode m) (streamHandler m s).2 =
      slotQueue (otherMode m) s ∧
    ∀ p rest, slotQueue m s = p :: rest →
      (streamHandler m s).1 = .body (payloadBody p) ∧
      slotQueue m (streamHandler m s).2 = rest ∧
      (slotQueue m (streamHandler m s).2).length + 1 =
        (slotQueue m s).length := by
  rw [streamHandler_valid m hm s]
  cases hq : slotQueue m s with
  | nil =>
    refine ⟨rfl, ?_⟩
    intro p rest hpr
    cases hpr
  | cons p restQ =>
    constructor
    · exact slotQueue_setSlotQueue_other m hm restQ s
    · intro p' rest' hpr
      injection hpr with e1 e2
      subst e1; subst e2
      refine ⟨rfl, ?_, ?_⟩
      · exact slotQueue_setSlotQueue_self m hm restQ s
      · rw [slotQueue_setSlotQueue_self m hm restQ s]
        exact rfl

/-- Witness for C10: polling "A" with two items queued for A and one
for B. -/
theorem claim_dequeue_frame_witness :
    slotQueue (otherMode "A") (streamHandler "A" sW).2 =
      slotQueue (otherMode "A") sW ∧
    (streamHandler "A" sW).1 =
      .body (payloadBody
        { audioBase64 := "a1", text := "t1", timestamp := 1 }) ∧
    slotQueue "A" (streamHandler "A" sW).2 =
      [{ audioBase64 := "a2", text := "t2", timestamp := 2 }] ∧
    (slotQueue "A" (streamHandler "A" sW).2).length + 1 =
      (slotQueue "A" sW).length := by
  have h := claim_dequeue_frame "A" sW (Or.inl rfl)
  have h2 := h.2 { audioBase64 := "a1", text := "t1", timestamp := 1 }
    [{ audioBase64 := "a2", text := "t2", timestamp := 2 }] rfl
  exact ⟨h.1, h2.1, h2.2.1, h2.2.2⟩
